import Mathlib

/-!
# Verification of larrecodnn core logic

Shallow embedding of the patch-cache logic of `nnet::PointIdAlg`
(`larrecodnn/ImagePatternAlgs/Tensorflow/PointIdAlg/PointIdAlg.h`), the
per-event bookkeeping of `anab::MVAWriter<N>`
(`larrecodnn/ImagePatternAlgs/PointIdAlg/MVAWriter.h`), the Triton error
helpers (`NuSonic/Triton/triton_utils.cc`), and the
`nnet::WireClusterFinder::produce` body, together with theorems about them.

Modelling conventions:
* C++ `float` values (drift coordinates, ADC samples, scores) are embedded
  as `ℚ`; `size_t`/`unsigned` indices as `ℕ`, except where a `size_t` slot
  stores the result of a float-to-integer conversion, where `ℤ` is used.
* Functions of the external base class `img::DataProviderAlg`
  (`patchFromDownsampledView`, `patchFromOriginalView`) are parameters of
  the embedding: `bufferPatch` treats them as oracles that read the patch
  buffer and return a success flag together with the new buffer contents.
* C++ code paths that throw `cet::exception` are embedded as a `thrown`
  outcome; unchecked `std::vector::operator[]` accesses outside the valid
  range (undefined behavior) as a distinct `ub` outcome.
-/

/-- C++ float-to-integer conversion `(size_t)x` / assignment of a float to an
integer slot: truncation toward zero. `Int.div` truncates toward zero, matching
the C++ rule for the representable cases. -/
def cppTrunc (q : ℚ) : ℤ :=
  Int.tdiv q.num (q.den : ℤ)

theorem cppTrunc_intCast (n : ℤ) : cppTrunc (n : ℚ) = n := by
  simp [cppTrunc, Rat.num_intCast, Rat.den_intCast, Int.tdiv_one]

namespace PointIdAlg

/-- The 2D patch buffer `fWireDriftPatch`: a vector of wire columns, each a
vector of downsampled drift samples. -/
abbrev Patch := List (List ℚ)

/-- An extraction routine of the base class (`patchFromDownsampledView` or
`patchFromOriginalView`): given wire, drift and the current buffer (passed by
reference in C++), returns the success flag and the buffer contents it leaves
behind. -/
abbrev Extractor := ℕ → ℚ → Patch → Bool × Patch

/-- Configuration and external collaborators of `nnet::PointIdAlg` relevant to
`bufferPatch`: `fDownscaleFullView`, `fDriftWindow`, and the two extraction
routines inherited from `img::DataProviderAlg`. -/
structure Cfg where
  downscaleFullView : Bool
  driftWindow : ℚ
  patchDown : Extractor
  patchOrig : Extractor

/-- The mutable cache slot of `nnet::PointIdAlg`: `fCurrentWireIdx`,
`fCurrentScaledDrift` and the patch buffer `fWireDriftPatch`. -/
structure CacheState where
  currentWireIdx : ℕ
  currentScaledDrift : ℤ
  patch : Patch
deriving DecidableEq

/-- The guard of `bufferPatch` (PointIdAlg.h lines 168 and 177): in downscaled
mode `fCurrentWireIdx == wire && fCurrentScaledDrift == (size_t)(drift /
fDriftWindow)`; otherwise `fCurrentWireIdx == wire && fCurrentScaledDrift ==
drift`, where the `size_t` slot is promoted to a float for the comparison. -/
def cacheHit (cfg : Cfg) (s : CacheState) (wire : ℕ) (drift : ℚ) : Bool :=
  if cfg.downscaleFullView then
    decide (s.currentWireIdx = wire ∧ s.currentScaledDrift = cppTrunc (drift / cfg.driftWindow))
  else
    decide (s.currentWireIdx = wire ∧ (s.currentScaledDrift : ℚ) = drift)

/-- `nnet::PointIdAlg::bufferPatch(wire, drift, patch)` (PointIdAlg.h lines
163-185).  On a cache hit it returns `true` leaving the state untouched;
otherwise it first overwrites `fCurrentWireIdx`/`fCurrentScaledDrift` with the
new coordinates and then calls the mode's extraction routine, whose flag is the
return value and whose buffer output replaces the patch. -/
def bufferPatch (cfg : Cfg) (wire : ℕ) (drift : ℚ) (s : CacheState) : Bool × CacheState :=
  if cacheHit cfg s wire drift then (true, s)
  else if cfg.downscaleFullView then
    let r := cfg.patchDown wire drift s.patch
    (r.1, ⟨wire, cppTrunc (drift / cfg.driftWindow), r.2⟩)
  else
    let r := cfg.patchOrig wire drift s.patch
    (r.1, ⟨wire, cppTrunc drift, r.2⟩)

theorem bufferPatch_of_hit (cfg : Cfg) (wire : ℕ) (drift : ℚ) (s : CacheState)
    (h : cacheHit cfg s wire drift = true) :
    bufferPatch cfg wire drift s = (true, s) := by
  simp [bufferPatch, h]

theorem bufferPatch_wire (cfg : Cfg) (wire : ℕ) (drift : ℚ) (s : CacheState) :
    ((bufferPatch cfg wire drift s).2).currentWireIdx = wire := by
  by_cases h : cacheHit cfg s wire drift = true
  · rw [bufferPatch_of_hit cfg wire drift s h]
    unfold cacheHit at h
    by_cases hd : cfg.downscaleFullView
    · simp [hd] at h
      exact h.1
    · simp [hd] at h
      exact h.1
  · unfold bufferPatch
    rw [if_neg (by simpa using h)]
    by_cases hd : cfg.downscaleFullView <;> simp [hd]

theorem bufferPatch_slot (cfg : Cfg) (wire : ℕ) (drift : ℚ) (s : CacheState) :
    ((bufferPatch cfg wire drift s).2).currentScaledDrift =
      (if cfg.downscaleFullView then cppTrunc (drift / cfg.driftWindow) else cppTrunc drift) := by
  by_cases h : cacheHit cfg s wire drift = true
  · rw [bufferPatch_of_hit cfg wire drift s h]
    unfold cacheHit at h
    by_cases hd : cfg.downscaleFullView
    · simp [hd] at h ⊢
      exact h.2
    · simp [hd] at h ⊢
      rw [← h.2, cppTrunc_intCast]
  · unfold bufferPatch
    rw [if_neg (by simpa using h)]
    by_cases hd : cfg.downscaleFullView <;> simp [hd]

/-- C1: if two consecutive `bufferPatch` queries map to the same cached cell
under the configured granularity policy (same wire index and, in downscaled
mode, the same value of the truncated `drift / fDriftWindow` bin; in
non-downscaled mode agreement with the stored current-drift slot), the second
call returns `true` without recomputing and leaves the whole cache state,
including the patch buffer, bit-identical to its state after the first call. -/
theorem c1_cache_hit_identity (cfg : Cfg) (w1 w2 : ℕ) (d1 d2 : ℚ) (s0 : CacheState)
    (hsame : (cfg.downscaleFullView = true →
        w2 = w1 ∧ cppTrunc (d2 / cfg.driftWindow) = cppTrunc (d1 / cfg.driftWindow)) ∧
      (cfg.downscaleFullView = false →
        w2 = w1 ∧ d2 = (((bufferPatch cfg w1 d1 s0).2).currentScaledDrift : ℚ))) :
    bufferPatch cfg w2 d2 (bufferPatch cfg w1 d1 s0).2 = (true, (bufferPatch cfg w1 d1 s0).2) := by
  apply bufferPatch_of_hit
  unfold cacheHit
  by_cases hd : cfg.downscaleFullView
  · obtain ⟨hw, hslot⟩ := hsame.1 hd
    simp only [hd, if_pos, decide_eq_true_eq]
    refine ⟨?_, ?_⟩
    · rw [bufferPatch_wire, hw]
    · rw [bufferPatch_slot, if_pos hd, hslot]
  · rw [Bool.not_eq_true] at hd
    obtain ⟨hw, hdrift⟩ := hsame.2 hd
    simp only [hd, Bool.false_eq_true, if_false, decide_eq_true_eq]
    refine ⟨?_, ?_⟩
    · rw [bufferPatch_wire, hw]
    · exact hdrift.symm

/-- C2: after a first `bufferPatch` query at `(w1, d1)`, a second query
`(w2, d2)` is treated as the same patch (the cache-hit guard holds) iff the
wire indices are equal (wire is never downscaled) and the drifts agree under
the drift policy: in downscaled mode, equality of the truncated
`drift / fDriftWindow` bins; in non-downscaled mode, raw comparison of the
drift value `d2` against the stored current-drift slot (which holds the
truncation of `d1`, since the slot is a `size_t`). -/
theorem c2_same_patch_policy (cfg : Cfg) (w1 w2 : ℕ) (d1 d2 : ℚ) (s0 : CacheState) :
    cacheHit cfg ((bufferPatch cfg w1 d1 s0).2) w2 d2 = true ↔
      (w2 = w1 ∧
        (cfg.downscaleFullView = true →
          cppTrunc (d2 / cfg.driftWindow) = cppTrunc (d1 / cfg.driftWindow)) ∧
        (cfg.downscaleFullView = false →
          d2 = (((bufferPatch cfg w1 d1 s0).2).currentScaledDrift : ℚ))) := by
  unfold cacheHit
  by_cases hd : cfg.downscaleFullView
  · simp only [hd, if_pos, decide_eq_true_eq, forall_const, Bool.true_eq_false,
      false_implies, and_true]
    rw [bufferPatch_wire, bufferPatch_slot, if_pos hd]
    exact ⟨fun ⟨a, b⟩ => ⟨a.symm, b.symm⟩, fun ⟨a, b⟩ => ⟨a.symm, b.symm⟩⟩
  · rw [Bool.not_eq_true] at hd
    simp only [hd, Bool.false_eq_true, if_false, decide_eq_true_eq, forall_const,
      false_implies, true_and, and_true]
    rw [bufferPatch_wire]
    exact ⟨fun ⟨a, b⟩ => ⟨a.symm, b.symm⟩, fun ⟨a, b⟩ => ⟨a.symm, b.symm⟩⟩

/-- C9: `bufferPatch` overwrites the cached coordinates before attempting the
extraction, so when the extraction fails (the call returns `false`) the buffer
holds whatever the failed extraction left, and any immediately following query
mapping to the (now cached) cell — in particular, in downscaled mode, the very
same point — returns `true` as a cache hit and leaves the patch buffer
unchanged, even though no patch was successfully computed there. -/
theorem c9_failed_extraction_caches_coordinates (cfg : Cfg) (w : ℕ) (d : ℚ)
    (s0 : CacheState) (p : Patch)
    (hmiss : cacheHit cfg s0 w d = false)
    (hfail : (if cfg.downscaleFullView then cfg.patchDown else cfg.patchOrig) w d s0.patch
      = (false, p)) :
    (bufferPatch cfg w d s0).1 = false ∧
    ((bufferPatch cfg w d s0).2).patch = p ∧
    (cfg.downscaleFullView = true →
      bufferPatch cfg w d (bufferPatch cfg w d s0).2 = (true, (bufferPatch cfg w d s0).2)) ∧
    (∀ w2 d2, cacheHit cfg ((bufferPatch cfg w d s0).2) w2 d2 = true →
      bufferPatch cfg w2 d2 (bufferPatch cfg w d s0).2 = (true, (bufferPatch cfg w d s0).2)) := by
  have hb : bufferPatch cfg w d s0 =
      (false, ⟨w, if cfg.downscaleFullView then cppTrunc (d / cfg.driftWindow) else cppTrunc d,
        p⟩) := by
    unfold bufferPatch
    by_cases hd : cfg.downscaleFullView
    · simp only [hd, if_pos, if_true] at hfail ⊢
      simp [hmiss, hfail]
    · rw [Bool.not_eq_true] at hd
      simp only [hd, Bool.false_eq_true, if_false] at hfail ⊢
      simp [hmiss, hfail]
  refine ⟨by rw [hb], by rw [hb], fun hd => ?_, fun w2 d2 hh => bufferPatch_of_hit _ _ _ _ hh⟩
  apply bufferPatch_of_hit
  rw [hb]
  unfold cacheHit
  simp [hd]

/-- A concrete downscaled configuration used by the witnesses below; the
extraction oracles are irrelevant to the cache logic exercised there. -/
def cfgW : Cfg :=
  ⟨true, 3, fun _ _ _ => (true, [[1]]), fun _ _ _ => (true, [[1]])⟩

/-- A concrete failing-extraction downscaled configuration for the C9 witness:
both extraction routines report failure, leaving `[[5]]` in the buffer. -/
def cfgF : Cfg :=
  ⟨true, 3, fun _ _ _ => (false, [[5]]), fun _ _ _ => (false, [[5]])⟩

/-- Witness for C1 at a concrete input: wire 2 with drifts 7 and 8 share the
drift bin 2 under window 3, so the second call is a no-op returning `true`. -/
theorem c1_cache_hit_identity_witness :
    bufferPatch cfgW 2 8 (bufferPatch cfgW 2 7 ⟨0, 0, []⟩).2 =
      (true, (bufferPatch cfgW 2 7 ⟨0, 0, []⟩).2) :=
  c1_cache_hit_identity cfgW 2 2 7 8 ⟨0, 0, []⟩
    ⟨fun _ => ⟨rfl, by norm_num [cfgW, cppTrunc]; decide⟩, fun h => absurd h (by decide)⟩

/-- Witness for C2 at a concrete input: after querying wire 2 drift 7, the
query at wire 2 drift 8 is recognized as the same patch. -/
theorem c2_same_patch_policy_witness :
    cacheHit cfgW ((bufferPatch cfgW 2 7 ⟨0, 0, []⟩).2) 2 8 = true :=
  (c2_same_patch_policy cfgW 2 2 7 8 ⟨0, 0, []⟩).mpr
    ⟨rfl, fun _ => by norm_num [cfgW, cppTrunc]; decide, fun h => absurd h (by decide)⟩

/-- Witness for C9 at a concrete input: the extraction at wire 2 drift 7 fails
leaving `[[5]]`, yet the repeated query is a cache hit returning `true`. -/
theorem c9_failed_extraction_caches_coordinates_witness :
    (bufferPatch cfgF 2 7 ⟨0, 0, []⟩).1 = false ∧
    ((bufferPatch cfgF 2 7 ⟨0, 0, []⟩).2).patch = [[5]] ∧
    (cfgF.downscaleFullView = true →
      bufferPatch cfgF 2 7 (bufferPatch cfgF 2 7 ⟨0, 0, []⟩).2 =
        (true, (bufferPatch cfgF 2 7 ⟨0, 0, []⟩).2)) ∧
    (∀ w2 d2, cacheHit cfgF ((bufferPatch cfgF 2 7 ⟨0, 0, []⟩).2) w2 d2 = true →
      bufferPatch cfgF w2 d2 (bufferPatch cfgF 2 7 ⟨0, 0, []⟩).2 =
        (true, (bufferPatch cfgF 2 7 ⟨0, 0, []⟩).2)) :=
  c9_failed_extraction_caches_coordinates cfgF 2 7 ⟨0, 0, []⟩ [[5]] (by simp [cacheHit, cfgF]) rfl

end PointIdAlg

namespace MVAWriter

/-- Outcome of a C++ member-function call: normal return, a thrown
`cet::exception` (with its message), or undefined behavior (unchecked
`std::vector::operator[]` out of range, or dereferencing a null
`std::unique_ptr`). -/
inductive COut (α : Type) where
  | ok : α → COut α
  | thrown : String → COut α
  | ub : COut α
deriving DecidableEq

/-- Whether the call ended in a thrown `cet::exception`. -/
def COut.isThrown {α : Type} : COut α → Bool
  | .thrown _ => true
  | _ => false

/-- `anab::MVADescription<N>` as stored by the writer: the encoded source
product tag and the output-collection instance name. -/
structure MVADesc where
  dataTag : String
  outputInstance : String
deriving DecidableEq

/-- The state of one `anab::MVAWriter<N>` instance.  `numOutputs` is the
template parameter N; `instanceName`, `registeredDataTypes` and
`isDescriptionRegistered` live for the module lifetime; `typeHashToID`
(`fTypeHashToID`), `outputs` (`fOutputs`, each entry one collection of
N-vectors) and `descriptions` (`fDescriptions`, null when absent) are
per-event.  A stored vector is a `List ℚ` of length `numOutputs`. -/
structure WriterState where
  numOutputs : ℕ
  instanceName : String
  registeredDataTypes : List String
  isDescriptionRegistered : Bool
  typeHashToID : List (ℕ × ℕ)
  outputs : List (List (List ℚ))
  descriptions : Option (List MVADesc)
deriving DecidableEq

/-- `std::unordered_map` assignment `m[k] = v`: overwrite any entry for `k`
(ordering of the remaining entries is irrelevant to `lookup`). -/
def hashMapInsert (k v : ℕ) (m : List (ℕ × ℕ)) : List (ℕ × ℕ) :=
  (k, v) :: m.filter (fun p => p.1 != k)

/-- `anab::MVAWriter<N>::produces_using<T>()` (MVAWriter.h lines 188-201):
registers the Description collection once, then records the product name of T
in `fRegisteredDataTypes` (the `fProducer->produces` calls are external
effects on the art module). -/
def producesUsing (s : WriterState) (tname : String) : WriterState :=
  let s1 := if s.isDescriptionRegistered then s else { s with isDescriptionRegistered := true }
  { s1 with registeredDataTypes := s1.registeredDataTypes ++ [tname] }

/-- `anab::MVAWriter<N>::descriptionExists` (MVAWriter.h lines 204-215): false
when `fDescriptions` is null, otherwise whether some stored Description has
output instance `fInstanceName + tname`. -/
def descriptionExists (s : WriterState) (tname : String) : Bool :=
  match s.descriptions with
  | none => false
  | some ds => ds.any (fun d => d.outputInstance == s.instanceName ++ tname)

/-- `anab::MVAWriter<N>::getProductID<T>()` (MVAWriter.h lines 174-185): looks
the type hash up in `fTypeHashToID` and throws a `cet::exception` naming the
product when the type was never initialized. -/
def getProductID (s : WriterState) (hash : ℕ) (tname : String) : COut ℕ :=
  match s.typeHashToID.lookup hash with
  | some id => .ok id
  | none => .thrown ("MVA not initialized for product " ++ tname)

/-- `anab::MVAWriter<N>::getOutput<T>(size_t key)` (MVAWriter.h lines 113-120):
`getProductID<T>()` (which may throw), then unchecked indexing of `fOutputs`
and of the collection at the key. -/
def getOutputAt (s : WriterState) (hash : ℕ) (tname : String) (key : ℕ) : COut (List ℚ) :=
  match getProductID s hash tname with
  | .ok id =>
    match s.outputs[id]? with
    | some coll =>
      match coll[key]? with
      | some v => .ok v
      | none => .ub
    | none => .ub
  | .thrown m => .thrown m
  | .ub => .ub

/-- `anab::MVAWriter<N>::setOutput(id, key, values)` (MVAWriter.h lines 59-62):
`(*(fOutputs[id]))[key] = values` — unchecked indexing at both levels, no
registration lookup, no throw. -/
def setOutput (s : WriterState) (id key : ℕ) (values : List ℚ) : COut WriterState :=
  match s.outputs[id]? with
  | none => .ub
  | some coll =>
    if key < coll.length then
      .ok { s with outputs := s.outputs.set id (coll.set key values) }
    else .ub

/-- `anab::MVAWriter<N>::addOutput(id, values)` (MVAWriter.h lines 74-77):
`fOutputs[id]->emplace_back(values)` — unchecked indexing of `fOutputs`, no
registration lookup, no throw. -/
def addOutput (s : WriterState) (id : ℕ) (values : List ℚ) : COut WriterState :=
  match s.outputs[id]? with
  | none => .ub
  | some coll => .ok { s with outputs := s.outputs.set id (coll ++ [values]) }

/-- `anab::MVAWriter<N>::initOutputs<T>` (MVAWriter.h lines 218-243): creates
the Description container if null, throws on a duplicate Description for the
type name, then appends the Description, a fresh (pre-sized or empty) output
collection, and the hash-to-ID registry entry, returning the new ID. -/
def initOutputs (s : WriterState) (hash : ℕ) (tname tagEncoded : String) (dataSize : ℕ) :
    COut (WriterState × ℕ) :=
  if s.descriptions.isSome && descriptionExists s tname then
    .thrown ("MVADescription already initialized for " ++ tname)
  else
    let ds1 := s.descriptions.getD [] ++ [⟨tagEncoded, s.instanceName ++ tname⟩]
    let newColl : List (List ℚ) :=
      if dataSize = 0 then [] else List.replicate dataSize (List.replicate s.numOutputs 0)
    let outs := s.outputs ++ [newColl]
    let id := outs.length - 1
    .ok ({ s with descriptions := some ds1,
                  outputs := outs,
                  typeHashToID := hashMapInsert hash id s.typeHashToID }, id)

/-- `anab::MVAWriter<N>::clearEventData` (MVAWriter.h lines 159-163). -/
def clearEventData (s : WriterState) : WriterState :=
  { s with typeHashToID := [], outputs := [], descriptions := none }

/-- What a successful `saveOutputs` hands to the event store: one
`(instance name, collection)` put per output collection, the Description put,
and the writer state left behind. -/
structure SaveResult where
  outputPuts : List (String × List (List ℚ))
  descriptionPut : String × List MVADesc
  finalState : WriterState
deriving DecidableEq

/-- `anab::MVAWriter<N>::saveOutputs` (MVAWriter.h lines 246-272): throws at
the first registered type name lacking a Description; then compares
`fOutputs.size()` with `fDescriptions->size()` — a null-pointer dereference
(UB) when `fDescriptions` was never created and nothing is registered —
throwing on mismatch; otherwise puts every output collection under its
Description's instance name, puts the Description collection, and resets the
per-event state. -/
def saveOutputs (s : WriterState) : COut SaveResult :=
  match s.registeredDataTypes.find? (fun n => !descriptionExists s n) with
  | some n => .thrown ("No MVADescription prepared for type " ++ n)
  | none =>
    match s.descriptions with
    | none => .ub
    | some ds =>
      if s.outputs.length ≠ ds.length then
        .thrown "MVADescription vector length not equal to the number of MVAOutput vectors"
      else
        .ok ⟨(ds.map MVADesc.outputInstance).zip s.outputs, (s.instanceName, ds),
          clearEventData s⟩

/-- Number of stored Descriptions whose output instance matches the type name
`tname` under the writer's instance name. -/
def descCount (s : WriterState) (tname : String) : ℕ :=
  (s.descriptions.getD []).countP (fun d => d.outputInstance == s.instanceName ++ tname)

/-- A freshly constructed writer (`MVAWriter<4>(module, "emtrack")`): nothing
registered, no per-event data. -/
def freshWriter : WriterState :=
  ⟨4, "emtrack", [], false, [], [], none⟩

/-- C3 counterexample: the claim says `setOutput` and `addOutput` raise a
fatal lookup-failure error for an unregistered type, but on a writer with no
type registered they raise nothing — they index `fOutputs` unchecked
(undefined behavior), with no lookup and no throw anywhere in their bodies. -/
theorem c3_counterexample :
    COut.isThrown (setOutput freshWriter 0 0 [0, 0, 0, 0]) = false ∧
    setOutput freshWriter 0 0 [0, 0, 0, 0] = COut.ub ∧
    COut.isThrown (addOutput freshWriter 0 [0, 0, 0, 0]) = false ∧
    addOutput freshWriter 0 [0, 0, 0, 0] = COut.ub := by
  refine ⟨rfl, rfl, rfl, rfl⟩

/-- C3 (amended): for a type T whose hash is absent from the registry,
`getOutput<T>` (through `getProductID<T>`) throws the fatal lookup-failure
error; `setOutput` and `addOutput`, however, are keyed by `MVAOutput_ID`
rather than by type, never throw, and with an ID not backed by any initialized
collection they perform unchecked out-of-range indexing (undefined
behavior). -/
theorem c3_unregistered_type_lookup (s : WriterState) (hash : ℕ) (tname : String) (key : ℕ)
    (h : s.typeHashToID.lookup hash = none) :
    COut.isThrown (getProductID s hash tname) = true ∧
    COut.isThrown (getOutputAt s hash tname key) = true ∧
    (∀ id values, COut.isThrown (setOutput s id key values) = false ∧
      COut.isThrown (addOutput s id values) = false ∧
      (s.outputs.length ≤ id →
        setOutput s id key values = COut.ub ∧ addOutput s id values = COut.ub)) := by
  have hg : getProductID s hash tname = .thrown ("MVA not initialized for product " ++ tname) := by
    unfold getProductID
    rw [h]
  refine ⟨by rw [hg]; rfl, ?_, ?_⟩
  · unfold getOutputAt
    rw [hg]
    rfl
  · intro id values
    refine ⟨?_, ?_, fun hle => ?_⟩
    · unfold setOutput
      cases hc : s.outputs[id]? with
      | none => rfl
      | some coll =>
        dsimp only
        by_cases hk : key < coll.length
        · rw [if_pos hk]; rfl
        · rw [if_neg hk]; rfl
    · unfold addOutput
      cases hc : s.outputs[id]? with
      | none => rfl
      | some coll => rfl
    · have hnone : s.outputs[id]? = none := by
        rw [List.getElem?_eq_none_iff]
        exact hle
      constructor
      · unfold setOutput
        rw [hnone]
      · unfold addOutput
        rw [hnone]

/-- Witness for the amended C3 at a concrete input: on the fresh writer, the
type-keyed lookup throws while `setOutput` silently hits undefined behavior. -/
theorem c3_unregistered_type_lookup_witness :
    COut.isThrown (getOutputAt freshWriter 5 "recobHit" 0) = true ∧
    COut.isThrown (setOutput freshWriter 0 0 []) = false :=
  ⟨(c3_unregistered_type_lookup freshWriter 5 "recobHit" 0 (by rfl)).2.1,
   ((c3_unregistered_type_lookup freshWriter 5 "recobHit" 0 (by rfl)).2.2 0 []).1⟩

/-- C4: after a first successful `initOutputs<T>` in an event, a second
`initOutputs<T>` for the same type in the same event throws the duplicate
Description error (before touching any state), and the state after the first
call holds exactly one Description for T. -/
theorem c4_duplicate_initOutputs_fatal (s s1 : WriterState) (hash : ℕ)
    (tname tagEncoded tagEncoded2 : String) (dataSize dataSize2 id : ℕ)
    (h : initOutputs s hash tname tagEncoded dataSize = .ok (s1, id)) :
    COut.isThrown (initOutputs s1 hash tname tagEncoded2 dataSize2) = true ∧
    descCount s1 tname = 1 := by
  unfold initOutputs at h
  by_cases hg : (s.descriptions.isSome && descriptionExists s tname) = true
  · rw [if_pos hg] at h
    exact absurd h (by simp)
  · rw [if_neg hg] at h
    simp only [COut.ok.injEq, Prod.mk.injEq] at h
    obtain ⟨hs1, _⟩ := h
    have hcount0 : (s.descriptions.getD []).countP
        (fun d => d.outputInstance == s.instanceName ++ tname) = 0 := by
      rw [Bool.not_eq_true, Bool.and_eq_false_iff] at hg
      cases hds : s.descriptions with
      | none => rfl
      | some ds =>
        rcases hg with hg | hg
        · rw [hds] at hg
          exact absurd hg (by simp)
        · unfold descriptionExists at hg
          rw [hds] at hg
          simp only [Option.getD_some]
          rw [List.countP_eq_zero]
          intro d hd
          rw [List.any_eq_false] at hg
          exact hg d hd
    have hex1 : descriptionExists s1 tname = true := by
      rw [← hs1]
      unfold descriptionExists
      simp [List.any_append]
    constructor
    · unfold initOutputs
      rw [if_pos ?_]
      · rfl
      · rw [hex1, ← hs1]
        simp
    · rw [← hs1]
      unfold descCount
      simp only [Option.getD_some, List.countP_append, hcount0]
      simp

/-- Witness for C4 at a concrete input: initializing twice for the same type
name on the fresh writer throws the second time, with exactly one stored
Description. -/
theorem c4_duplicate_initOutputs_fatal_witness :
    COut.isThrown (initOutputs
      ⟨4, "emtrack", ["H"], true, [(7, 0)], [[]], some [⟨"tag", "emtrackH"⟩]⟩
      7 "H" "tag" 0) = true ∧
    descCount ⟨4, "emtrack", ["H"], true, [(7, 0)], [[]], some [⟨"tag", "emtrackH"⟩]⟩ "H" = 1 :=
  c4_duplicate_initOutputs_fatal (producesUsing freshWriter "H") _ 7 "H" "tag" "tag" 0 0 0
    (by rfl)

/-- C5: `saveOutputs` throws whenever some registered type name has no
matching Description, and whenever the Description container exists but its
length differs from the number of output collections; it hands the collections
to the event store exactly when every registered type has a Description, the
Description container exists, and the counts agree. -/
theorem c5_saveOutputs_checks (s : WriterState) :
    (s.registeredDataTypes.any (fun n => !descriptionExists s n) = true →
      COut.isThrown (saveOutputs s) = true) ∧
    (∀ ds, s.descriptions = some ds → s.outputs.length ≠ ds.length →
      COut.isThrown (saveOutputs s) = true) ∧
    ((∃ r, saveOutputs s = .ok r) ↔
      (s.registeredDataTypes.all (fun n => descriptionExists s n) = true ∧
        ∃ ds, s.descriptions = some ds ∧ s.outputs.length = ds.length)) := by
  refine ⟨?_, ?_, ?_, ?_⟩
  · intro ha
    unfold saveOutputs
    cases hf : s.registeredDataTypes.find? (fun n => !descriptionExists s n) with
    | some n => rfl
    | none =>
      exfalso
      rw [List.find?_eq_none] at hf
      rw [List.any_eq_true] at ha
      obtain ⟨n, hn, hpn⟩ := ha
      exact hf n hn hpn
  · intro ds hds hne
    unfold saveOutputs
    cases hf : s.registeredDataTypes.find? (fun n => !descriptionExists s n) with
    | some n => rfl
    | none =>
      rw [hds]
      dsimp only
      rw [if_pos hne]
      rfl
  · rintro ⟨r, hr⟩
    unfold saveOutputs at hr
    cases hf : s.registeredDataTypes.find? (fun n => !descriptionExists s n) with
    | some n => rw [hf] at hr; exact absurd hr (by simp)
    | none =>
      rw [hf] at hr
      cases hds : s.descriptions with
      | none => rw [hds] at hr; exact absurd hr (by simp)
      | some ds =>
        rw [hds] at hr
        dsimp only at hr
        by_cases hlen : s.outputs.length ≠ ds.length
        · rw [if_pos hlen] at hr
          exact absurd hr (by simp)
        · refine ⟨?_, ds, rfl, by simpa using hlen⟩
          rw [List.all_eq_true]
          intro n hn
          rw [List.find?_eq_none] at hf
          have hx := hf n hn
          simpa using hx
  · rintro ⟨hall, ds, hds, hlen⟩
    unfold saveOutputs
    have hf : s.registeredDataTypes.find? (fun n => !descriptionExists s n) = none := by
      rw [List.find?_eq_none]
      intro n hn
      rw [List.all_eq_true] at hall
      simpa using hall n hn
    rw [hf, hds]
    dsimp only
    rw [if_neg (by simpa using hlen)]
    exact ⟨_, rfl⟩

/-- Witness for C5 at a concrete input: a writer with registered type "H" but
no Description prepared makes `saveOutputs` throw. -/
theorem c5_saveOutputs_checks_witness :
    COut.isThrown (saveOutputs (producesUsing freshWriter "H")) = true :=
  (c5_saveOutputs_checks (producesUsing freshWriter "H")).1 (by rfl)

/-- C6: after a successful `saveOutputs`, all per-event state is reset — the
type-hash registry and output-collection vector are empty and the Description
container is null — while the module-lifetime fields (instance name,
registered-type list, description-registered flag, output width) are
unchanged. -/
theorem c6_saveOutputs_resets_event_state (s : WriterState) (r : SaveResult)
    (h : saveOutputs s = .ok r) :
    r.finalState.typeHashToID = [] ∧ r.finalState.outputs = [] ∧
    r.finalState.descriptions = none ∧
    r.finalState.registeredDataTypes = s.registeredDataTypes ∧
    r.finalState.isDescriptionRegistered = s.isDescriptionRegistered ∧
    r.finalState.instanceName = s.instanceName ∧
    r.finalState.numOutputs = s.numOutputs := by
  unfold saveOutputs at h
  cases hf : s.registeredDataTypes.find? (fun n => !descriptionExists s n) with
  | some n => rw [hf] at h; exact absurd h (by simp)
  | none =>
    rw [hf] at h
    cases hds : s.descriptions with
    | none => rw [hds] at h; exact absurd h (by simp)
    | some ds =>
      rw [hds] at h
      dsimp only at h
      by_cases hlen : s.outputs.length ≠ ds.length
      · rw [if_pos hlen] at h
        exact absurd h (by simp)
      · rw [if_neg hlen] at h
        simp only [COut.ok.injEq] at h
        subst h
        exact ⟨rfl, rfl, rfl, rfl, rfl, rfl, rfl⟩

/-- A writer state about to save: one registered type "H", its Description
prepared, one (empty) output collection. -/
def readyWriter : WriterState :=
  ⟨4, "emtrack", ["H"], true, [(7, 0)], [[]], some [⟨"tag", "emtrackH"⟩]⟩

/-- Witness for C6 at a concrete input: saving `readyWriter` succeeds and
leaves the per-event fields cleared with the module-lifetime fields intact. -/
theorem c6_saveOutputs_resets_event_state_witness :
    (SaveResult.mk [("emtrackH", [])] ("emtrack", [⟨"tag", "emtrackH"⟩])
        ⟨4, "emtrack", ["H"], true, [], [], none⟩).finalState.typeHashToID = [] ∧
    (SaveResult.mk [("emtrackH", [])] ("emtrack", [⟨"tag", "emtrackH"⟩])
        ⟨4, "emtrack", ["H"], true, [], [], none⟩).finalState.outputs = [] ∧
    (SaveResult.mk [("emtrackH", [])] ("emtrack", [⟨"tag", "emtrackH"⟩])
        ⟨4, "emtrack", ["H"], true, [], [], none⟩).finalState.descriptions = none ∧
    (SaveResult.mk [("emtrackH", [])] ("emtrack", [⟨"tag", "emtrackH"⟩])
        ⟨4, "emtrack", ["H"], true, [], [], none⟩).finalState.registeredDataTypes =
      readyWriter.registeredDataTypes ∧
    (SaveResult.mk [("emtrackH", [])] ("emtrack", [⟨"tag", "emtrackH"⟩])
        ⟨4, "emtrack", ["H"], true, [], [], none⟩).finalState.isDescriptionRegistered =
      readyWriter.isDescriptionRegistered ∧
    (SaveResult.mk [("emtrackH", [])] ("emtrack", [⟨"tag", "emtrackH"⟩])
        ⟨4, "emtrack", ["H"], true, [], [], none⟩).finalState.instanceName =
      readyWriter.instanceName ∧
    (SaveResult.mk [("emtrackH", [])] ("emtrack", [⟨"tag", "emtrackH"⟩])
        ⟨4, "emtrack", ["H"], true, [], [], none⟩).finalState.numOutputs =
      readyWriter.numOutputs :=
  c6_saveOutputs_resets_event_state readyWriter _ (by rfl)

end MVAWriter

namespace MVAWrapperBase

/-- Modelled from the spec: `anab::MVAWrapperBase::pAccumulate` over a list of
items with stored score vectors (the implementation lives in larreco's
`MVAWrapperBase.h`, which is not part of this repository's sources; spec
section 4.6 (a)): unweighted arithmetic mean across items, one entry per
output slot. -/
def pAccumulate {ι : Type} (N : ℕ) (score : ι → Fin N → ℚ) (items : List ι) : Fin N → ℚ :=
  fun j => (items.map (fun i => score i j)).sum / (items.length : ℚ)

/-- Modelled from the spec: the overload taking externally supplied per-item
weights (spec section 4.6 (b)): weighted mean, normalizing by the sum of the
weights. -/
def pAccumulateWeighted {ι : Type} (N : ℕ) (score : ι → Fin N → ℚ) (items : List ι)
    (weights : List ℚ) : Fin N → ℚ :=
  fun j => (List.zipWith (fun i w => w * score i j) items weights).sum / weights.sum

/-- Modelled from the spec: the overload taking a caller-supplied weighting
function evaluated per item (spec section 4.6 (c)). -/
def pAccumulateWeightFun {ι : Type} (N : ℕ) (score : ι → Fin N → ℚ) (items : List ι)
    (fweight : ι → ℚ) : Fin N → ℚ :=
  fun j => (items.map (fun i => fweight i * score i j)).sum / (items.map fweight).sum

theorem zipWith_mul_one_replicate {ι : Type} (g : ι → ℚ) (l : List ι) :
    List.zipWith (fun i w => w * g i) l (List.replicate l.length 1) = l.map g := by
  induction l with
  | nil => rfl
  | cons x xs ih => simp only [List.length_cons, List.replicate_succ, List.zipWith_cons_cons,
      one_mul, List.map_cons, ih]

theorem sum_map_one {ι : Type} (l : List ι) : (l.map (fun _ => (1 : ℚ))).sum = l.length := by
  induction l with
  | nil => simp
  | cons x xs ih =>
    simp only [List.map_cons, List.sum_cons, ih, List.length_cons]
    push_cast
    ring

/-- C7: on every non-empty item list, weighted accumulation with all weights
equal to 1 and weighting-function accumulation with the constant-1 function
both produce exactly the result vector of the unweighted accumulation (the
identity is exact in ℚ, hence within any floating-point tolerance). -/
theorem c7_uniform_weight_identity {ι : Type} (N : ℕ) (score : ι → Fin N → ℚ)
    (items : List ι) (hne : items ≠ []) :
    pAccumulateWeighted N score items (List.replicate items.length 1) =
        pAccumulate N score items ∧
      pAccumulateWeightFun N score items (fun _ => 1) = pAccumulate N score items := by
  constructor
  · funext j
    unfold pAccumulateWeighted pAccumulate
    rw [zipWith_mul_one_replicate (fun i => score i j) items]
    rw [List.sum_replicate, nsmul_eq_mul, mul_one]
  · funext j
    unfold pAccumulateWeightFun pAccumulate
    simp only [one_mul]
    rw [sum_map_one]

/-- Witness for C7 at the spec's concrete scenario: two items with score
vectors `[0.2, 0.8]` and `[0.6, 0.4]`; all three accumulations agree (the
common value is the mean `[0.4, 0.6]`). -/
theorem c7_uniform_weight_identity_witness :
    pAccumulateWeighted 2 (fun i : Fin 2 => fun j : Fin 2 =>
        if i = 0 then (if j = 0 then 1/5 else 4/5) else (if j = 0 then 3/5 else 2/5))
      [0, 1] (List.replicate ([0, 1] : List (Fin 2)).length 1) =
      pAccumulate 2 (fun i : Fin 2 => fun j : Fin 2 =>
        if i = 0 then (if j = 0 then 1/5 else 4/5) else (if j = 0 then 3/5 else 2/5)) [0, 1] ∧
    pAccumulateWeightFun 2 (fun i : Fin 2 => fun j : Fin 2 =>
        if i = 0 then (if j = 0 then 1/5 else 4/5) else (if j = 0 then 3/5 else 2/5))
      [0, 1] (fun _ => 1) =
      pAccumulate 2 (fun i : Fin 2 => fun j : Fin 2 =>
        if i = 0 then (if j = 0 then 1/5 else 4/5) else (if j = 0 then 3/5 else 2/5)) [0, 1] :=
  c7_uniform_weight_identity 2
    (fun i : Fin 2 => fun j : Fin 2 =>
      if i = 0 then (if j = 0 then 1/5 else 4/5) else (if j = 0 then 3/5 else 2/5))
    [0, 1] (by simp)

end MVAWrapperBase

namespace TritonUtils

/-- The Triton client library's `nvidia::inferenceserver::client::Error` as
seen through this repository: its `IsOk()` flag and its printed text. -/
structure Error where
  isOk : Bool
  text : String
deriving DecidableEq

/-- `triton_utils::throwIfError` (triton_utils.cc lines 26-29): throws a
`cet::exception` carrying the supplied message and the error text iff the
error is not OK. -/
def throwIfError (err : Error) (msg : String) : Except String Unit :=
  if !err.isOk then Except.error (msg ++ ": " ++ err.text) else Except.ok ()

/-- `triton_utils::warnIfError` (triton_utils.cc lines 31-35): emits a warning
(first component) iff the error is not OK, never throws, and returns
`err.IsOk()`. -/
def warnIfError (err : Error) (msg : String) : List String × Bool :=
  (if !err.isOk then [msg ++ ": " ++ err.text] else [], err.isOk)

/-- C8: `throwIfError` throws — carrying the supplied message — iff the error
is not OK, returning normally otherwise; `warnIfError` never throws (it is a
total function), returns `true` iff the error is OK, and emits a warning iff
the error is not OK. -/
theorem c8_error_escalation_policy (e : Error) (m : String) :
    ((∃ s, throwIfError e m = .error s) ↔ e.isOk = false) ∧
    (e.isOk = false → throwIfError e m = .error (m ++ ": " ++ e.text)) ∧
    (e.isOk = true → throwIfError e m = .ok ()) ∧
    ((warnIfError e m).2 = true ↔ e.isOk = true) ∧
    ((warnIfError e m).1 ≠ [] ↔ e.isOk = false) := by
  cases e with
  | mk ok text => cases ok <;> simp [throwIfError, warnIfError]

/-- Witness for C8 at a concrete input: a not-OK error with text "boom" makes
`throwIfError` throw with the supplied message prefixed, while `warnIfError`
returns `false` and warns. -/
theorem c8_error_escalation_policy_witness :
    throwIfError ⟨false, "boom"⟩ "msg" = .error "msg: boom" ∧
    ((warnIfError ⟨false, "boom"⟩ "msg").2 = true ↔ (Error.mk false "boom").isOk = true) :=
  ⟨(c8_error_escalation_policy ⟨false, "boom"⟩ "msg").2.1 rfl,
   (c8_error_escalation_policy ⟨false, "boom"⟩ "msg").2.2.2.1⟩

end TritonUtils

namespace WireClusterFinder

/-- `recob::Wire` as used by `nnet::WireClusterFinder`: channel number, view,
and the signal regions of interest (each a starting tick with its samples). -/
structure RecobWire where
  channel : ℕ
  view : ℤ
  roiRanges : List (ℕ × List ℚ)
deriving DecidableEq

/-- `nnet::WireClusterFinder::GetApaView` (WireClusterFinder_module.cc): the
pair `(channel / fNChanPerApa, view)`. -/
def getApaView (nChanPerApa : ℕ) (w : RecobWire) : ℕ × ℤ :=
  (w.channel / nChanPerApa, w.view)

/-- Insertion step used to model `std::sort` with a strict-weak-order
comparator (the permutation produced is irrelevant to `produce`'s output). -/
def insertByLt (lt : RecobWire → RecobWire → Bool) (w : RecobWire) :
    List RecobWire → List RecobWire
  | [] => [w]
  | x :: xs => if lt w x then w :: x :: xs else x :: insertByLt lt w xs

/-- `nnet::WireClusterFinder::SortWirePtrByChannel`: sorts by channel,
increasing or decreasing. -/
def sortWirePtrByChannel (increasing : Bool) (ws : List RecobWire) : List RecobWire :=
  ws.foldr
    (insertByLt (fun a b =>
      if increasing then decide (a.channel < b.channel) else decide (b.channel < a.channel)))
    []

/-- One `std::map` update `apaViewWirePtrVec[apaView].push_back(wire)`. -/
def addToGroup (k : ℕ × ℤ) (w : RecobWire) :
    List ((ℕ × ℤ) × List RecobWire) → List ((ℕ × ℤ) × List RecobWire)
  | [] => [(k, [w])]
  | (k1, ws) :: rest =>
    if k1 = k then (k1, ws ++ [w]) :: rest else (k1, ws) :: addToGroup k w rest

/-- `nnet::WireClusterFinder::produce` (WireClusterFinder_module.cc lines
258-385), as the list of collections put into the event: wires without regions
of interest are filtered out, the rest are grouped by `(APA, view)` and each
group sorted by increasing channel, but the output vector `outwires` is
created empty, never appended to (the wire-processing loop is commented out in
the source), and put as-is — so exactly one, always-empty, collection is
put. -/
def produce (nChanPerApa : ℕ) (wirelist : List RecobWire) : List (List RecobWire) :=
  let apaViewWirePtrVec := wirelist.foldl
    (fun m w =>
      if w.roiRanges.length = 0 then m else addToGroup (getApaView nChanPerApa w) w m)
    []
  let _sortedGroups :=
    apaViewWirePtrVec.map (fun kv => (kv.1, sortWirePtrByChannel true kv.2))
  let outwires : List RecobWire := []
  [outwires]

/-- C10: for every input wire list, `produce` puts exactly one
`std::vector<recob::Wire>` collection into the event, and that collection is
empty regardless of the input. -/
theorem c10_produce_puts_single_empty_collection (nChanPerApa : ℕ)
    (wirelist : List RecobWire) :
    produce nChanPerApa wirelist = [[]] := rfl

end WireClusterFinder
